import Mathlib

/-!
Shallow embedding of `XTTS v2/Backend Server/server.py` (FastAPI TTS server).

Python floats are modelled as rationals: the server only passes literal
parameter values through (no float arithmetic occurs), so this is faithful.
The file system, the fresh uuid hex and the `tts.tts_to_file` backend are
modelled as an explicit `World`; the module-level mutable dict
`EMOTION_SETTINGS` is threaded through every handler as an explicit
`ServerState`, so that any mutation of it by a handler would be visible.
A `tts.tts_to_file` invocation is recorded as a `BackendCall`; a keyword
argument that the call site does not pass at all is an outer `none`, and a
Python `None` value that is passed is an inner `none`.
-/

/-- Value of one entry of the `EMOTION_SETTINGS` dict (server.py lines 81-118).
The Python key "prefix" is a Lean keyword, so the field is named `pfx`. -/
structure EmotionCfg where
  temperature : ℚ
  speed : ℚ
  top_p : ℚ
  pfx : String
deriving DecidableEq, Repr

/-- The `EMOTION_SETTINGS` dict, in source order (server.py lines 81-118). -/
def EMOTION_SETTINGS : List (String × EmotionCfg) :=
  [ ("happy",   { temperature := 0.85, speed := 1.1,  top_p := 0.9,  pfx := "**excited** " }),
    ("sad",     { temperature := 0.65, speed := 0.9,  top_p := 0.75, pfx := "**sadly** " }),
    ("angry",   { temperature := 0.95, speed := 1.15, top_p := 0.95, pfx := "**angrily** " }),
    ("excited", { temperature := 0.95, speed := 1.2,  top_p := 0.95, pfx := "**very excited** " }),
    ("calm",    { temperature := 0.6,  speed := 0.95, top_p := 0.7,  pfx := "**calmly** " }),
    ("whisper", { temperature := 0.5,  speed := 0.85, top_p := 0.6,  pfx := "**whispers** " }) ]

/-- Python dict membership/indexing (`tag in d`, `d[tag]`) on the assoc list. -/
def lookupEmotion (m : List (String × EmotionCfg)) (k : String) : Option EmotionCfg :=
  (m.find? (fun p => p.1 == k)).map (fun p => p.2)

/-- `DEFAULT_SPEAKER_WAV = "test.wav"` (server.py line 45). -/
def DEFAULT_SPEAKER_WAV : String := "test.wav"

/-- The pydantic model `TTSRequest` after parsing (server.py lines 55-66).
`Optional` fields hold `none` exactly when the parsed Python value is `None`. -/
structure TTSRequest where
  text : String
  speaker_wav : Option String
  language : String
  speed : Option ℚ
  temperature : Option ℚ
  length_penalty : Option ℚ
  repetition_penalty : Option ℚ
  top_k : Option ℤ
  top_p : Option ℚ
deriving DecidableEq, Repr

/-- The JSON body of a `/speak` request before pydantic parsing: an outer
`none` means the field is absent from the JSON object, `some none` means the
field is present with value `null`, `some (some v)` a present value. -/
structure RawTTSRequest where
  text : String
  speaker_wav : Option (Option String)
  language : Option String
  speed : Option (Option ℚ)
  temperature : Option (Option ℚ)
  length_penalty : Option (Option ℚ)
  repetition_penalty : Option (Option ℚ)
  top_k : Option (Option ℤ)
  top_p : Option (Option ℚ)
deriving DecidableEq, Repr

/-- Pydantic parsing of `TTSRequest` (server.py lines 55-66): an absent field
takes its declared default (`speed=1.0`, `temperature=0.75`,
`length_penalty=1.0`, `repetition_penalty=5.0`, `top_k=50`, `top_p=0.85`,
`language="en"`); a field present as `null` parses to Python `None`
(the fields are `Optional`). -/
def parseTTSRequest (r : RawTTSRequest) : TTSRequest where
  text := r.text
  speaker_wav := match r.speaker_wav with
    | none => none
    | some o => o
  language := r.language.getD "en"
  speed := match r.speed with
    | none => some 1
    | some o => o
  temperature := match r.temperature with
    | none => some 0.75
    | some o => o
  length_penalty := match r.length_penalty with
    | none => some 1
    | some o => o
  repetition_penalty := match r.repetition_penalty with
    | none => some 5
    | some o => o
  top_k := match r.top_k with
    | none => some 50
    | some o => o
  top_p := match r.top_p with
    | none => some 0.85
    | some o => o

/-- The pydantic model `EmotionPreset` — the `/speak_emotion` request body
(server.py lines 68-73). -/
structure EmotionPresetReq where
  text : String
  emotion : String
  speaker_wav : Option String
  language : String
deriving DecidableEq, Repr

/-- The expression `req.speaker_wav if req.speaker_wav else DEFAULT_SPEAKER_WAV`
(server.py lines 151 and 205). Python string truthiness: `None` and the empty
string are both falsy, so both fall back to the default. -/
def resolveSpeaker (s : Option String) : String :=
  match s with
  | none => DEFAULT_SPEAKER_WAV
  | some v => if v = "" then DEFAULT_SPEAKER_WAV else v

/-- One invocation of `tts.tts_to_file`. Each keyword-argument field is
`none` when the call site omits the keyword entirely; an inner `none` is a
Python `None` value passed for that keyword. -/
structure BackendCall where
  text : String
  speaker_wav : String
  language : String
  file_path : String
  speed : Option (Option ℚ)
  temperature : Option (Option ℚ)
  length_penalty : Option (Option ℚ)
  repetition_penalty : Option (Option ℚ)
  top_k : Option (Option ℤ)
  top_p : Option (Option ℚ)
deriving DecidableEq, Repr

/-- A raised `HTTPException(status_code, detail)`. -/
structure HTTPErr where
  status : ℕ
  detail : String
deriving DecidableEq, Repr

/-- A FastAPI `FileResponse(path, filename, media_type)`. -/
structure FileResponse where
  path : String
  filename : String
  media_type : String
deriving DecidableEq, Repr

/-- The environment of a single request: the file system (`os.path.exists`),
the fresh `uuid.uuid4().hex`, the behaviour of `tts.tts_to_file` (success, or
an exception with message `str(e)`), and the torch device string. -/
structure World where
  fsExists : String → Bool
  freshHex : String
  backend : BackendCall → Except String Unit
  device : String

/-- The mutable module-level state the handlers can see: the
`EMOTION_SETTINGS` dict. -/
structure ServerState where
  emotion_settings : List (String × EmotionCfg)
deriving DecidableEq, Repr

/-- The module state right after process start, when the dict literal at
server.py lines 81-118 has been evaluated. -/
def initServerState : ServerState := ⟨EMOTION_SETTINGS⟩

/-- Outcome of one POST handler: the transport response, the
`tts.tts_to_file` invocation it performed (if any), and the module state it
leaves behind. -/
structure StepResult where
  resp : Except HTTPErr FileResponse
  call : Option BackendCall
  state : ServerState
deriving Repr

/-- `os.path.basename` on the slash-separated paths the server builds: the
suffix after the last slash. -/
def pyBasename (s : String) : String :=
  String.mk ((s.data.reverse.takeWhile (fun ch => ch ≠ Char.ofNat 47)).reverse)

/-- The `POST /speak` handler `speak` (server.py lines 137-186): resolve the
speaker file, 400 if it does not exist, otherwise call `tts.tts_to_file` with
all six control parameters taken verbatim from the request; a backend
exception is caught and re-raised as a 500 whose detail is `str(e)`. -/
def speak (w : World) (req : TTSRequest) (st : ServerState) : StepResult :=
  let filename := "output/" ++ w.freshHex ++ ".wav"
  let speaker_file := resolveSpeaker req.speaker_wav
  if w.fsExists speaker_file then
    let c : BackendCall :=
      { text := req.text
        speaker_wav := speaker_file
        language := req.language
        file_path := filename
        speed := some req.speed
        temperature := some req.temperature
        length_penalty := some req.length_penalty
        repetition_penalty := some req.repetition_penalty
        top_k := some req.top_k
        top_p := some req.top_p }
    match w.backend c with
    | Except.ok _ =>
        ⟨Except.ok ⟨filename, pyBasename filename, "audio/wav"⟩, some c, st⟩
    | Except.error msg =>
        ⟨Except.error ⟨500, msg⟩, some c, st⟩
  else
    ⟨Except.error ⟨400, "Speaker file not found: " ++ speaker_file⟩, none, st⟩

/-- The single-quote character, for reproducing Python `repr` of strings. -/
def singleQuote : String := String.mk [Char.ofNat 39]

/-- Python `str(list_of_strings)` as interpolated into the unknown-emotion
error detail. -/
def pyListRepr (l : List String) : String :=
  "[" ++ String.intercalate ", " (l.map (fun k => singleQuote ++ k ++ singleQuote)) ++ "]"

/-- The `POST /speak_emotion` handler `speak_with_emotion` (server.py lines
188-243): 400 if the emotion tag is not in `EMOTION_SETTINGS`; 400 if the
resolved speaker file does not exist; otherwise prepend the preset prefix to
the text and call `tts.tts_to_file` with only the preset speed, temperature
and top_p keywords; a backend exception becomes a 500 with detail `str(e)`. -/
def speak_with_emotion (w : World) (req : EmotionPresetReq) (st : ServerState) : StepResult :=
  match lookupEmotion st.emotion_settings req.emotion with
  | none =>
      ⟨Except.error ⟨400, "Unknown emotion. Available: "
          ++ pyListRepr (st.emotion_settings.map Prod.fst)⟩, none, st⟩
  | some emotion_config =>
    let filename := "output/" ++ w.freshHex ++ ".wav"
    let speaker_file := resolveSpeaker req.speaker_wav
    if w.fsExists speaker_file then
      let modified_text := emotion_config.pfx ++ req.text
      let c : BackendCall :=
        { text := modified_text
          speaker_wav := speaker_file
          language := req.language
          file_path := filename
          speed := some (some emotion_config.speed)
          temperature := some (some emotion_config.temperature)
          length_penalty := none
          repetition_penalty := none
          top_k := none
          top_p := some (some emotion_config.top_p) }
      match w.backend c with
      | Except.ok _ =>
          ⟨Except.ok ⟨filename, pyBasename filename, "audio/wav"⟩, some c, st⟩
      | Except.error msg =>
          ⟨Except.error ⟨500, msg⟩, some c, st⟩
    else
      ⟨Except.error ⟨400, "Speaker file not found: " ++ speaker_file⟩, none, st⟩

/-- The JSON object returned by `GET /` (server.py lines 123-135). -/
structure RootResponse where
  message : String
  device : String
  default_speaker : String
  available_emotions : List String
  voice_controls : List (String × String)
deriving DecidableEq, Repr

/-- The `GET /` handler `root` (server.py lines 123-135). -/
def root (w : World) (st : ServerState) : RootResponse × ServerState :=
  (⟨"XTTS v2 TTS API is running!", w.device, DEFAULT_SPEAKER_WAV,
    st.emotion_settings.map Prod.fst,
    [ ("speed", "0.5 to 2.0 (default: 1.0)"),
      ("temperature", "0.1 to 1.0 (default: 0.75)"),
      ("top_p", "0.1 to 1.0 (default: 0.85)") ]⟩, st)

/-- The JSON object returned by `GET /emotions` (server.py lines 245-251). -/
structure EmotionsResponse where
  available_emotions : List String
  settings : List (String × EmotionCfg)
deriving DecidableEq, Repr

/-- The `GET /emotions` handler `list_emotions` (server.py lines 245-251). -/
def list_emotions (st : ServerState) : EmotionsResponse × ServerState :=
  (⟨st.emotion_settings.map Prod.fst, st.emotion_settings⟩, st)

/-! Helper lemmas characterising the handlers, shared by the claim theorems. -/

/-- The `/speak` handler never writes the module state. -/
lemma speak_state_const (w : World) (req : TTSRequest) (st : ServerState) :
    (speak w req st).state = st := by
  unfold speak
  dsimp only
  split
  · split <;> rfl
  · rfl

/-- The `/speak_emotion` handler never writes the module state. -/
lemma speak_with_emotion_state_const (w : World) (r : EmotionPresetReq) (st : ServerState) :
    (speak_with_emotion w r st).state = st := by
  unfold speak_with_emotion
  split
  · rfl
  · dsimp only
    split
    · split <;> rfl
    · rfl

/-- Whenever `/speak` reaches the backend, the call it makes is exactly the
one built from the request at lines 162-173 of server.py. -/
lemma speak_call_spec (w : World) (req : TTSRequest) (st : ServerState) (c : BackendCall)
    (h : (speak w req st).call = some c) :
    c = { text := req.text, speaker_wav := resolveSpeaker req.speaker_wav,
          language := req.language, file_path := "output/" ++ w.freshHex ++ ".wav",
          speed := some req.speed, temperature := some req.temperature,
          length_penalty := some req.length_penalty,
          repetition_penalty := some req.repetition_penalty,
          top_k := some req.top_k, top_p := some req.top_p } := by
  unfold speak at h
  dsimp only at h
  split at h
  · split at h <;> (dsimp only at h; injection h with h; exact h.symm)
  · exact absurd h (by simp)

/-- Whenever `/speak_emotion` reaches the backend, the call it makes is
exactly the one built from the preset at lines 214-230 of server.py. -/
lemma speak_with_emotion_call_spec (w : World) (r : EmotionPresetReq) (st : ServerState)
    (cfg : EmotionCfg) (c : BackendCall)
    (hl : lookupEmotion st.emotion_settings r.emotion = some cfg)
    (h : (speak_with_emotion w r st).call = some c) :
    c = { text := cfg.pfx ++ r.text, speaker_wav := resolveSpeaker r.speaker_wav,
          language := r.language, file_path := "output/" ++ w.freshHex ++ ".wav",
          speed := some (some cfg.speed), temperature := some (some cfg.temperature),
          length_penalty := none, repetition_penalty := none, top_k := none,
          top_p := some (some cfg.top_p) } := by
  unfold speak_with_emotion at h
  rw [hl] at h
  dsimp only at h
  split at h
  · split at h <;> (dsimp only at h; injection h with h; exact h.symm)
  · exact absurd h (by simp)

/-- A missing speaker file makes `/speak` return the 400 error without
calling the backend. -/
lemma speak_missing_speaker (w : World) (req : TTSRequest) (st : ServerState)
    (h : w.fsExists (resolveSpeaker req.speaker_wav) = false) :
    speak w req st =
      ⟨Except.error ⟨400, "Speaker file not found: " ++ resolveSpeaker req.speaker_wav⟩,
       none, st⟩ := by
  unfold speak
  dsimp only
  rw [h]
  simp

/-- An unknown emotion tag makes `/speak_emotion` return the 400 error
without calling the backend. -/
lemma speak_with_emotion_unknown (w : World) (r : EmotionPresetReq) (st : ServerState)
    (h : lookupEmotion st.emotion_settings r.emotion = none) :
    speak_with_emotion w r st =
      ⟨Except.error ⟨400, "Unknown emotion. Available: "
          ++ pyListRepr (st.emotion_settings.map Prod.fst)⟩, none, st⟩ := by
  unfold speak_with_emotion
  rw [h]

/-- A known emotion but missing speaker file makes `/speak_emotion` return
the 400 error without calling the backend. -/
lemma speak_with_emotion_missing_speaker (w : World) (r : EmotionPresetReq) (st : ServerState)
    (cfg : EmotionCfg) (hl : lookupEmotion st.emotion_settings r.emotion = some cfg)
    (h : w.fsExists (resolveSpeaker r.speaker_wav) = false) :
    speak_with_emotion w r st =
      ⟨Except.error ⟨400, "Speaker file not found: " ++ resolveSpeaker r.speaker_wav⟩,
       none, st⟩ := by
  unfold speak_with_emotion
  rw [hl]
  dsimp only
  rw [h]
  simp

/-- When the backend raises during `/speak`, the response is a 500 whose
detail is the exception message itself. -/
lemma speak_backend_error (w : World) (req : TTSRequest) (st : ServerState) (c : BackendCall)
    (msg : String) (hc : (speak w req st).call = some c)
    (hb : w.backend c = Except.error msg) :
    (speak w req st).resp = Except.error ⟨500, msg⟩ := by
  unfold speak at hc ⊢
  dsimp only at hc ⊢
  split at hc
  · rename_i hfs
    rw [if_pos hfs]
    split at hc <;> rename_i heq
    · dsimp only at hc
      injection hc with hc
      rw [← hc, heq] at hb
      exact absurd hb (by simp)
    · dsimp only at hc
      injection hc with hc
      rw [← hc] at hb
      rw [heq] at hb
      injection hb with hb
      dsimp only
      rw [hb]
  · exact absurd hc (by simp)

/-- When the backend raises during `/speak_emotion`, the response is a 500
whose detail is the exception message itself. -/
lemma speak_with_emotion_backend_error (w : World) (r : EmotionPresetReq) (st : ServerState)
    (c : BackendCall) (msg : String)
    (hc : (speak_with_emotion w r st).call = some c)
    (hb : w.backend c = Except.error msg) :
    (speak_with_emotion w r st).resp = Except.error ⟨500, msg⟩ := by
  cases hlk : lookupEmotion st.emotion_settings r.emotion with
  | none =>
      rw [speak_with_emotion_unknown w r st hlk] at hc
      exact absurd hc (by simp)
  | some cfg =>
      unfold speak_with_emotion at hc ⊢
      rw [hlk] at hc ⊢
      dsimp only at hc ⊢
      split at hc
      · rename_i hfs
        rw [if_pos hfs]
        split at hc <;> rename_i heq
        · dsimp only at hc
          injection hc with hc
          rw [← hc, heq] at hb
          exact absurd hb (by simp)
        · dsimp only at hc
          injection hc with hc
          rw [← hc] at hb
          rw [heq] at hb
          injection hb with hb
          dsimp only
          rw [hb]
      · exact absurd hc (by simp)

/-! Concrete fixtures used by witnesses and counterexamples. -/

/-- A world where every file exists and the backend succeeds. -/
def wOk : World := ⟨fun _ => true, "deadbeef", fun _ => Except.ok (), "cpu"⟩

/-- A world with a second fresh hex, to vary the environment. -/
def wAlt : World := ⟨fun s => s == "test.wav", "cafebabe", fun _ => Except.ok (), "cuda"⟩

/-- A world where no file exists. -/
def wNoFiles : World := ⟨fun _ => false, "deadbeef", fun _ => Except.ok (), "cpu"⟩

/-- A world whose backend raises a detailed internal exception. -/
def wBoom : World :=
  ⟨fun _ => true, "deadbeef", fun _ => Except.error "CUDA error: device-side assert triggered", "cpu"⟩

/-- A world whose backend raises a different internal exception. -/
def wCrash : World := ⟨fun _ => true, "deadbeef", fun _ => Except.error "boom", "cpu"⟩

/-- A `/speak` request that keeps every default but sets `speed` to 3.0. -/
def speedThreeReq : TTSRequest :=
  ⟨"Hello", none, "en", some 3, some 0.75, some 1, some 5, some 50, some 0.85⟩

/-- A `/speak` request holding exactly the declared pydantic defaults. -/
def defaultReq : TTSRequest :=
  ⟨"Hello", none, "en", some 1, some 0.75, some 1, some 5, some 50, some 0.85⟩

/-- A `/speak` request whose `speaker_wav` is the empty string — present and
non-null, but falsy in Python. -/
def emptySpeakerReq : TTSRequest :=
  ⟨"Hello", some "", "en", some 1, some 0.75, some 1, some 5, some 50, some 0.85⟩

/-- The `/speak_emotion` request of the spec's whisper example. -/
def whisperReq : EmotionPresetReq := ⟨"Hello", "whisper", none, "en"⟩

/-- A `/speak_emotion` request with a tag outside the static mapping. -/
def furiousReq : EmotionPresetReq := ⟨"Hello", "furious", none, "en"⟩

/-- The `EMOTION_SETTINGS` entry for "whisper". -/
def whisperCfg : EmotionCfg := ⟨0.5, 0.85, 0.6, "**whispers** "⟩

/-- The backend call `/speak` makes for `speedThreeReq` in `wOk`. -/
def speedThreeCall : BackendCall :=
  ⟨"Hello", "test.wav", "en", "output/deadbeef.wav", some (some 3), some (some 0.75),
   some (some 1), some (some 5), some (some 50), some (some 0.85)⟩

/-- The backend call `/speak` makes for `defaultReq` in `wBoom`. -/
def defaultCall : BackendCall :=
  ⟨"Hello", "test.wav", "en", "output/deadbeef.wav", some (some 1), some (some 0.75),
   some (some 1), some (some 5), some (some 50), some (some 0.85)⟩

/-- The backend call `/speak_emotion` makes for `whisperReq` in a world with
fresh hex "deadbeef". -/
def whisperCall : BackendCall :=
  ⟨"**whispers** Hello", "test.wav", "en", "output/deadbeef.wav", some (some 0.85),
   some (some 0.5), none, none, none, some (some 0.6)⟩

/-- The backend call `/speak_emotion` makes for `whisperReq` in `wAlt`. -/
def whisperCallAlt : BackendCall :=
  ⟨"**whispers** Hello", "test.wav", "en", "output/cafebabe.wav", some (some 0.85),
   some (some 0.5), none, none, none, some (some 0.6)⟩

/-! Claim theorems. -/

/-- Claim C1: a `/speak_emotion` request with text "Hello" and emotion
"whisper" that reaches the backend passes it temperature 0.5, speed 0.85,
top_p 0.6 and text "**whispers** Hello" (the preset prefix prepended), for
every environment and every speaker/language choice. -/
theorem C1_whisper_hello (w : World) (sw : Option String) (lang : String)
    (h : w.fsExists (resolveSpeaker sw) = true) :
    (speak_with_emotion w ⟨"Hello", "whisper", sw, lang⟩ initServerState).call.map
      (fun c => (c.temperature, c.speed, c.top_p, c.text))
      = some (some (some 0.5), some (some 0.85), some (some 0.6), "**whispers** Hello") := by
  unfold speak_with_emotion
  have hl : lookupEmotion initServerState.emotion_settings "whisper" = some whisperCfg := rfl
  simp only [hl, h]
  cases w.backend _ <;> rfl

/-- Witness for C1 at a concrete world with the default speaker present. -/
theorem C1_whisper_hello_witness :
    wOk.fsExists (resolveSpeaker none) = true ∧
    (speak_with_emotion wOk ⟨"Hello", "whisper", none, "en"⟩ initServerState).call.map
      (fun c => (c.temperature, c.speed, c.top_p, c.text))
      = some (some (some 0.5), some (some 0.85), some (some 0.6), "**whispers** Hello") :=
  ⟨rfl, C1_whisper_hello wOk none "en" rfl⟩

/-- Claim C2, counterexample: the server applies no validation policy at all.
A `/speak` request with speed 3.0 is neither rejected (it returns the normal
200 file response) nor clamped to 2.0 (the backend receives speed 3.0). -/
theorem C2_counterexample :
    (speak wOk speedThreeReq initServerState).resp =
        Except.ok ⟨"output/deadbeef.wav", "deadbeef.wav", "audio/wav"⟩ ∧
    (speak wOk speedThreeReq initServerState).call.map (fun c => c.speed)
        = some (some (some 3)) ∧
    (3 : ℚ) ≠ 2 :=
  ⟨rfl, rfl, by norm_num⟩

/-- Claim C2 as amended: `/speak` performs no validation whatsoever — every
numeric control parameter, in range or not, is forwarded to the backend
verbatim; no request is rejected for an out-of-range value and no value is
clamped. -/
theorem C2_no_validation (w : World) (req : TTSRequest) (c : BackendCall)
    (h : (speak w req initServerState).call = some c) :
    c.speed = some req.speed ∧ c.temperature = some req.temperature ∧
    c.top_p = some req.top_p ∧ c.length_penalty = some req.length_penalty ∧
    c.repetition_penalty = some req.repetition_penalty ∧ c.top_k = some req.top_k := by
  rw [speak_call_spec w req initServerState c h]
  exact ⟨rfl, rfl, rfl, rfl, rfl, rfl⟩

/-- Witness for the amended C2 at the concrete speed-3.0 request. -/
theorem C2_no_validation_witness :
    (speak wOk speedThreeReq initServerState).call = some speedThreeCall ∧
    (speedThreeCall.speed = some speedThreeReq.speed ∧
     speedThreeCall.temperature = some speedThreeReq.temperature ∧
     speedThreeCall.top_p = some speedThreeReq.top_p ∧
     speedThreeCall.length_penalty = some speedThreeReq.length_penalty ∧
     speedThreeCall.repetition_penalty = some speedThreeReq.repetition_penalty ∧
     speedThreeCall.top_k = some speedThreeReq.top_k) :=
  ⟨rfl, C2_no_validation wOk speedThreeReq speedThreeCall rfl⟩

/-- Claim C3: a `/speak_emotion` request whose emotion tag is not in the
static mapping fails with the 400 unknown-emotion error and the backend is
never invoked. -/
theorem C3_unknown_emotion (w : World) (r : EmotionPresetReq)
    (h : lookupEmotion EMOTION_SETTINGS r.emotion = none) :
    (speak_with_emotion w r initServerState).resp =
        Except.error ⟨400, "Unknown emotion. Available: "
            ++ pyListRepr (EMOTION_SETTINGS.map Prod.fst)⟩ ∧
    (speak_with_emotion w r initServerState).call = none := by
  rw [speak_with_emotion_unknown w r initServerState h]
  exact ⟨rfl, rfl⟩

/-- Witness for C3 at the concrete tag "furious". -/
theorem C3_unknown_emotion_witness :
    lookupEmotion EMOTION_SETTINGS furiousReq.emotion = none ∧
    ((speak_with_emotion wOk furiousReq initServerState).resp =
        Except.error ⟨400, "Unknown emotion. Available: "
            ++ pyListRepr (EMOTION_SETTINGS.map Prod.fst)⟩ ∧
     (speak_with_emotion wOk furiousReq initServerState).call = none) :=
  ⟨rfl, C3_unknown_emotion wOk furiousReq rfl⟩

/-- Claim C4: a request whose resolved speaker file does not exist fails
with a 400 error whose detail names the offending file, and the backend is
not invoked — for `/speak` always, and for `/speak_emotion` whenever the
emotion tag is known (an unknown tag is reported first, before the speaker
check, server.py lines 196-211). -/
theorem C4_missing_speaker (w : World) (req : TTSRequest) (r : EmotionPresetReq)
    (cfg : EmotionCfg)
    (h1 : w.fsExists (resolveSpeaker req.speaker_wav) = false)
    (hl : lookupEmotion EMOTION_SETTINGS r.emotion = some cfg)
    (h2 : w.fsExists (resolveSpeaker r.speaker_wav) = false) :
    ((speak w req initServerState).resp =
        Except.error ⟨400, "Speaker file not found: " ++ resolveSpeaker req.speaker_wav⟩ ∧
     (speak w req initServerState).call = none) ∧
    ((speak_with_emotion w r initServerState).resp =
        Except.error ⟨400, "Speaker file not found: " ++ resolveSpeaker r.speaker_wav⟩ ∧
     (speak_with_emotion w r initServerState).call = none) := by
  rw [speak_missing_speaker w req initServerState h1,
      speak_with_emotion_missing_speaker w r initServerState cfg hl h2]
  exact ⟨⟨rfl, rfl⟩, ⟨rfl, rfl⟩⟩

/-- Witness for C4 in a world with no files, with the offending default
file named in both details. -/
theorem C4_missing_speaker_witness :
    wNoFiles.fsExists (resolveSpeaker defaultReq.speaker_wav) = false ∧
    lookupEmotion EMOTION_SETTINGS whisperReq.emotion = some whisperCfg ∧
    wNoFiles.fsExists (resolveSpeaker whisperReq.speaker_wav) = false ∧
    (((speak wNoFiles defaultReq initServerState).resp =
        Except.error ⟨400, "Speaker file not found: " ++ resolveSpeaker defaultReq.speaker_wav⟩ ∧
      (speak wNoFiles defaultReq initServerState).call = none) ∧
     ((speak_with_emotion wNoFiles whisperReq initServerState).resp =
        Except.error ⟨400, "Speaker file not found: " ++ resolveSpeaker whisperReq.speaker_wav⟩ ∧
      (speak_with_emotion wNoFiles whisperReq initServerState).call = none)) :=
  ⟨rfl, rfl, rfl, C4_missing_speaker wNoFiles defaultReq whisperReq whisperCfg rfl rfl rfl⟩

/-- Claim C5: preset resolution is deterministic. Two `/speak_emotion`
invocations with the same tag and the same base text — in arbitrary, possibly
different environments, speakers and languages — hand the backend the same
merged control parameters (speed, temperature, top_p) and the same annotated
text. -/
theorem C5_preset_deterministic (w₁ w₂ : World) (r₁ r₂ : EmotionPresetReq)
    (c₁ c₂ : BackendCall)
    (he : r₁.emotion = r₂.emotion) (ht : r₁.text = r₂.text)
    (h₁ : (speak_with_emotion w₁ r₁ initServerState).call = some c₁)
    (h₂ : (speak_with_emotion w₂ r₂ initServerState).call = some c₂) :
    c₁.speed = c₂.speed ∧ c₁.temperature = c₂.temperature ∧
    c₁.top_p = c₂.top_p ∧ c₁.text = c₂.text := by
  cases hl₁ : lookupEmotion initServerState.emotion_settings r₁.emotion with
  | none =>
      rw [speak_with_emotion_unknown w₁ r₁ initServerState hl₁] at h₁
      exact absurd h₁ (by simp)
  | some cfg =>
      have hl₂ : lookupEmotion initServerState.emotion_settings r₂.emotion = some cfg := by
        rw [← he]; exact hl₁
      rw [speak_with_emotion_call_spec w₁ r₁ initServerState cfg c₁ hl₁ h₁,
          speak_with_emotion_call_spec w₂ r₂ initServerState cfg c₂ hl₂ h₂]
      exact ⟨rfl, rfl, rfl, by rw [ht]⟩

/-- Witness for C5: the whisper request run in two different environments
yields the same forwarded parameters and annotated text. -/
theorem C5_preset_deterministic_witness :
    whisperReq.emotion = whisperReq.emotion ∧ whisperReq.text = whisperReq.text ∧
    (speak_with_emotion wOk whisperReq initServerState).call = some whisperCall ∧
    (speak_with_emotion wAlt whisperReq initServerState).call = some whisperCallAlt ∧
    (whisperCall.speed = whisperCallAlt.speed ∧
     whisperCall.temperature = whisperCallAlt.temperature ∧
     whisperCall.top_p = whisperCallAlt.top_p ∧
     whisperCall.text = whisperCallAlt.text) :=
  ⟨rfl, rfl, rfl, rfl,
   C5_preset_deterministic wOk wAlt whisperReq whisperReq whisperCall whisperCallAlt
     rfl rfl rfl rfl⟩

/-- Claim C6, counterexample: a backend failure is surfaced as a 500 whose
detail is the internal exception text itself, not a generic message — two
different internal errors produce two different response bodies, and the full
internal detail crosses the transport boundary. -/
theorem C6_counterexample :
    (speak wBoom defaultReq initServerState).resp =
        Except.error ⟨500, "CUDA error: device-side assert triggered"⟩ ∧
    (speak wCrash defaultReq initServerState).resp = Except.error ⟨500, "boom"⟩ ∧
    ("CUDA error: device-side assert triggered" : String) ≠ "boom" :=
  ⟨rfl, rfl, by decide⟩

/-- Claim C6 as amended: backend failures in `/speak` and `/speak_emotion`
are surfaced as 500 (5xx-equivalent), but the response detail is exactly the
internal exception message `str(e)` — the full detail crosses the transport
boundary in the response rather than appearing only in logs. -/
theorem C6_backend_error_passthrough (w : World) (req : TTSRequest) (r : EmotionPresetReq)
    (c c₂ : BackendCall) (m₁ m₂ : String)
    (hc : (speak w req initServerState).call = some c)
    (hb : w.backend c = Except.error m₁)
    (hc₂ : (speak_with_emotion w r initServerState).call = some c₂)
    (hb₂ : w.backend c₂ = Except.error m₂) :
    (speak w req initServerState).resp = Except.error ⟨500, m₁⟩ ∧
    (speak_with_emotion w r initServerState).resp = Except.error ⟨500, m₂⟩ :=
  ⟨speak_backend_error w req initServerState c m₁ hc hb,
   speak_with_emotion_backend_error w r initServerState c₂ m₂ hc₂ hb₂⟩

/-- Witness for the amended C6: a concrete failing backend leaks its exact
message through both endpoints. -/
theorem C6_backend_error_passthrough_witness :
    (speak wBoom defaultReq initServerState).call = some defaultCall ∧
    wBoom.backend defaultCall = Except.error "CUDA error: device-side assert triggered" ∧
    (speak_with_emotion wBoom whisperReq initServerState).call = some whisperCall ∧
    wBoom.backend whisperCall = Except.error "CUDA error: device-side assert triggered" ∧
    ((speak wBoom defaultReq initServerState).resp =
        Except.error ⟨500, "CUDA error: device-side assert triggered"⟩ ∧
     (speak_with_emotion wBoom whisperReq initServerState).resp =
        Except.error ⟨500, "CUDA error: device-side assert triggered"⟩) :=
  ⟨rfl, rfl, rfl, rfl,
   C6_backend_error_passthrough wBoom defaultReq whisperReq defaultCall whisperCall
     "CUDA error: device-side assert triggered" "CUDA error: device-side assert triggered"
     rfl rfl rfl rfl⟩

/-- Claim C7: the emotion-preset mapping is static and read-only. It is the
dict literal `EMOTION_SETTINGS` evaluated at process start, no handler
(`/`, `/speak`, `/speak_emotion`, `/emotions`) changes the module state that
holds it, and `/emotions` observes exactly the current mapping. -/
theorem C7_emotion_settings_static :
    initServerState.emotion_settings = EMOTION_SETTINGS ∧
    (∀ (w : World) (st : ServerState), (root w st).2 = st) ∧
    (∀ (w : World) (req : TTSRequest) (st : ServerState), (speak w req st).state = st) ∧
    (∀ (w : World) (r : EmotionPresetReq) (st : ServerState),
        (speak_with_emotion w r st).state = st) ∧
    (∀ st : ServerState, (list_emotions st).2 = st) ∧
    (∀ st : ServerState,
        (list_emotions st).1.settings = st.emotion_settings ∧
        (list_emotions st).1.available_emotions = st.emotion_settings.map Prod.fst) :=
  ⟨rfl, fun _ _ => rfl, fun w req st => speak_state_const w req st,
   fun w r st => speak_with_emotion_state_const w r st,
   fun _ => rfl, fun _ => ⟨rfl, rfl⟩⟩

/-- The raw `/speak` body with every optional field absent. -/
def rawAllAbsent : RawTTSRequest := ⟨"Hello", none, none, none, none, none, none, none, none⟩

/-- Claim C8: after pydantic parsing, any control-parameter field the caller
leaves absent takes its documented default: speed 1.0, temperature 0.75,
length_penalty 1.0, repetition_penalty 5.0, top_k 50, top_p 0.85 and
language "en". -/
theorem C8_absent_fields_get_defaults (r : RawTTSRequest) :
    (r.speed = none → (parseTTSRequest r).speed = some 1) ∧
    (r.temperature = none → (parseTTSRequest r).temperature = some 0.75) ∧
    (r.length_penalty = none → (parseTTSRequest r).length_penalty = some 1) ∧
    (r.repetition_penalty = none → (parseTTSRequest r).repetition_penalty = some 5) ∧
    (r.top_k = none → (parseTTSRequest r).top_k = some 50) ∧
    (r.top_p = none → (parseTTSRequest r).top_p = some 0.85) ∧
    (r.language = none → (parseTTSRequest r).language = "en") := by
  refine ⟨fun h => ?_, fun h => ?_, fun h => ?_, fun h => ?_, fun h => ?_, fun h => ?_,
    fun h => ?_⟩ <;> simp [parseTTSRequest, h]

/-- Witness for C8 at a body with every optional field absent. -/
theorem C8_absent_fields_get_defaults_witness :
    rawAllAbsent.speed = none ∧
    ((parseTTSRequest rawAllAbsent).speed = some 1 ∧
     (parseTTSRequest rawAllAbsent).temperature = some 0.75 ∧
     (parseTTSRequest rawAllAbsent).length_penalty = some 1 ∧
     (parseTTSRequest rawAllAbsent).repetition_penalty = some 5 ∧
     (parseTTSRequest rawAllAbsent).top_k = some 50 ∧
     (parseTTSRequest rawAllAbsent).top_p = some 0.85 ∧
     (parseTTSRequest rawAllAbsent).language = "en") :=
  ⟨rfl,
   (C8_absent_fields_get_defaults rawAllAbsent).1 rfl,
   (C8_absent_fields_get_defaults rawAllAbsent).2.1 rfl,
   (C8_absent_fields_get_defaults rawAllAbsent).2.2.1 rfl,
   (C8_absent_fields_get_defaults rawAllAbsent).2.2.2.1 rfl,
   (C8_absent_fields_get_defaults rawAllAbsent).2.2.2.2.1 rfl,
   (C8_absent_fields_get_defaults rawAllAbsent).2.2.2.2.2.1 rfl,
   (C8_absent_fields_get_defaults rawAllAbsent).2.2.2.2.2.2 rfl⟩

/-- Claim C9, counterexample: a present, non-null `speaker_wav` equal to the
empty string is NOT used verbatim — Python truthiness makes the handler fall
back to the default "test.wav" for it. -/
theorem C9_counterexample :
    emptySpeakerReq.speaker_wav = some "" ∧
    (speak wOk emptySpeakerReq initServerState).call.map (fun c => c.speaker_wav)
        = some "test.wav" ∧
    ("test.wav" : String) ≠ "" :=
  ⟨rfl, rfl, by decide⟩

/-- Claim C9 as amended: both handlers resolve the speaker through the same
truthiness check — an absent/null `speaker_wav` and the empty string both
resolve to the process-wide default "test.wav"; any non-empty `speaker_wav`
is used verbatim. -/
theorem C9_speaker_resolution :
    DEFAULT_SPEAKER_WAV = "test.wav" ∧
    resolveSpeaker none = DEFAULT_SPEAKER_WAV ∧
    resolveSpeaker (some "") = DEFAULT_SPEAKER_WAV ∧
    (∀ v : String, v ≠ "" → resolveSpeaker (some v) = v) ∧
    (∀ (w : World) (req : TTSRequest) (st : ServerState) (c : BackendCall),
        (speak w req st).call = some c → c.speaker_wav = resolveSpeaker req.speaker_wav) ∧
    (∀ (w : World) (r : EmotionPresetReq) (st : ServerState) (c : BackendCall),
        (speak_with_emotion w r st).call = some c →
          c.speaker_wav = resolveSpeaker r.speaker_wav) := by
  refine ⟨rfl, rfl, rfl, fun v hv => ?_, fun w req st c hc => ?_, fun w r st c hc => ?_⟩
  · simp [resolveSpeaker, hv]
  · rw [speak_call_spec w req st c hc]
  · cases hl : lookupEmotion st.emotion_settings r.emotion with
    | none =>
        rw [speak_with_emotion_unknown w r st hl] at hc
        exact absurd hc (by simp)
    | some cfg =>
        rw [speak_with_emotion_call_spec w r st cfg c hl hc]

/-- Witness for the amended C9 at concrete inputs: a non-empty name is kept,
and the concrete whisper call in `wOk` uses the resolved default speaker. -/
theorem C9_speaker_resolution_witness :
    ("voice.wav" : String) ≠ "" ∧ resolveSpeaker (some "voice.wav") = "voice.wav" ∧
    (speak wOk defaultReq initServerState).call = some defaultCall ∧
    defaultCall.speaker_wav = resolveSpeaker defaultReq.speaker_wav ∧
    (speak_with_emotion wOk whisperReq initServerState).call = some whisperCall ∧
    whisperCall.speaker_wav = resolveSpeaker whisperReq.speaker_wav :=
  ⟨by decide, (C9_speaker_resolution.2.2.2.1) "voice.wav" (by decide),
   rfl, (C9_speaker_resolution.2.2.2.2.1) wOk defaultReq initServerState defaultCall rfl,
   rfl, (C9_speaker_resolution.2.2.2.2.2) wOk whisperReq initServerState whisperCall rfl⟩

/-- Claim C10: `/speak_emotion` passes the backend only the preset speed,
temperature and top_p — the length_penalty, repetition_penalty and top_k
keywords are not passed at all — while `/speak` passes all six control
parameters from the request. -/
theorem C10_forwarded_params (w : World) (req : TTSRequest) (r : EmotionPresetReq)
    (cfg : EmotionCfg) (c c₂ : BackendCall)
    (hc : (speak w req initServerState).call = some c)
    (hl : lookupEmotion EMOTION_SETTINGS r.emotion = some cfg)
    (hc₂ : (speak_with_emotion w r initServerState).call = some c₂) :
    (c.speed = some req.speed ∧ c.temperature = some req.temperature ∧
     c.length_penalty = some req.length_penalty ∧
     c.repetition_penalty = some req.repetition_penalty ∧
     c.top_k = some req.top_k ∧ c.top_p = some req.top_p) ∧
    (c₂.speed = some (some cfg.speed) ∧ c₂.temperature = some (some cfg.temperature) ∧
     c₂.top_p = some (some cfg.top_p) ∧ c₂.length_penalty = none ∧
     c₂.repetition_penalty = none ∧ c₂.top_k = none) := by
  rw [speak_call_spec w req initServerState c hc,
      speak_with_emotion_call_spec w r initServerState cfg c₂ hl hc₂]
  exact ⟨⟨rfl, rfl, rfl, rfl, rfl, rfl⟩, ⟨rfl, rfl, rfl, rfl, rfl, rfl⟩⟩

/-- Witness for C10 at the concrete default and whisper requests. -/
theorem C10_forwarded_params_witness :
    (speak wOk defaultReq initServerState).call = some defaultCall ∧
    lookupEmotion EMOTION_SETTINGS whisperReq.emotion = some whisperCfg ∧
    (speak_with_emotion wOk whisperReq initServerState).call = some whisperCall ∧
    ((defaultCall.speed = some defaultReq.speed ∧
      defaultCall.temperature = some defaultReq.temperature ∧
      defaultCall.length_penalty = some defaultReq.length_penalty ∧
      defaultCall.repetition_penalty = some defaultReq.repetition_penalty ∧
      defaultCall.top_k = some defaultReq.top_k ∧
      defaultCall.top_p = some defaultReq.top_p) ∧
     (whisperCall.speed = some (some whisperCfg.speed) ∧
      whisperCall.temperature = some (some whisperCfg.temperature) ∧
      whisperCall.top_p = some (some whisperCfg.top_p) ∧
      whisperCall.length_penalty = none ∧
      whisperCall.repetition_penalty = none ∧ whisperCall.top_k = none)) :=
  ⟨rfl, rfl, rfl,
   C10_forwarded_params wOk defaultReq whisperReq whisperCfg defaultCall whisperCall
     rfl rfl rfl⟩
